import Mathlib

/-
Verification of the idle auto-mute program (src/auto_mute.py).

The program keeps two pieces of mutable state in main (lines 58-59):
muted_by_us : bool and saved_volume : optional scalar.  A background
monitor_loop (lines 83-119) polls the idle time once per second and,
per tick (lines 90-109), either mutes (saving the scalar volume),
restores, or does nothing; after the loop exits it runs a final
restore pass (lines 111-116).  get_idle_seconds (lines 26-33) computes
(tick_count - dwTime) / 1000.0 from two 32-bit OS readings.

The shallow embedding below models one tick of monitor_loop as a pure
function on a state record that also carries the audio device's scalar
volume and hardware mute flag and the tray icon's title, and returns
the ordered list of external calls (volume reads/writes, mute writes,
title writes) the tick performs.  Volumes and durations are rationals.
-/

namespace AutoMute

/-- Configuration read once in main: idle_minutes from the IDLE_MINUTES
environment variable (auto_mute.py line 51) and the precomputed
idle_threshold local (line 52).  monitor_loop closes over both. -/
structure Config where
  idle_minutes : ℚ
  idle_threshold : ℚ
deriving DecidableEq

/-- main computes idle_threshold = idle_minutes * 60 (line 52). -/
def mkConfig (idle_minutes : ℚ) : Config :=
  { idle_minutes := idle_minutes, idle_threshold := idle_minutes * 60 }

/-- The tray icon's title text, abstracted over its two shapes: the
default running title (line 75, rewritten at line 106) parameterised by
idle_minutes, and the muted title (line 97) parameterised by the idle
duration it displays. -/
inductive TrayTitle where
  | running (idle_minutes : ℚ)
  | muted (idle_sec : ℚ)
deriving DecidableEq

/-- One externally observable call made by the monitor loop: a scalar
volume read (GetMasterVolumeLevelScalar), a mute-flag write (SetMute),
a scalar volume write (SetMasterVolumeLevelScalar), or a write to
tray_icon.title. -/
inductive Event where
  | getVol (v : ℚ)
  | setMute (b : Bool)
  | setVol (v : ℚ)
  | setTitle (t : TrayTitle)
deriving DecidableEq

/-- Whether an event is a write to tray_icon.title. -/
def Event.isTitleWrite : Event → Bool
  | Event.setTitle _ => true
  | _ => false

/-- Whether an event is a scalar-volume write. -/
def Event.isVolWrite : Event → Bool
  | Event.setVol _ => true
  | _ => false

/-- The state touched by monitor_loop: the two MuteState variables
muted_by_us and saved_volume (lines 58-59), the audio device's scalar
volume and hardware mute flag (the pycaw endpoint of line 56), and the
tray title. -/
structure SysState where
  muted_by_us : Bool
  saved_volume : Option ℚ
  vol : ℚ
  dev_muted : Bool
  title : TrayTitle
deriving DecidableEq

/-- Startup state: muted_by_us = False, saved_volume = None (lines
58-59), tray title set at icon construction (line 75); the device's
scalar volume v0 and mute flag m0 are whatever the OS has. -/
def initSt (c : Config) (v0 : ℚ) (m0 : Bool) : SysState :=
  { muted_by_us := false
    saved_volume := none
    vol := v0
    dev_muted := m0
    title := TrayTitle.running c.idle_minutes }

/-- One iteration of the while-loop body of monitor_loop (auto_mute.py
lines 90-109), given the sampled idle_sec.  Returns the new state and
the ordered list of external calls the iteration makes.
Branch 1 (lines 93-98): idle_sec >= idle_threshold and not muted_by_us:
read the scalar volume into saved_volume, SetMute(1), set muted_by_us,
write the muted tray title.
Branch 2 (lines 100-107): idle_sec < idle_threshold and muted_by_us:
SetMute(0), then if saved_volume is not None write it back, clear
muted_by_us, write the default tray title, clear saved_volume.
Otherwise (no else branch in the source): nothing happens. -/
def tick (c : Config) (idle_sec : ℚ) (s : SysState) : SysState × List Event :=
  if c.idle_threshold ≤ idle_sec ∧ s.muted_by_us = false then
    ({ muted_by_us := true
       saved_volume := some s.vol
       vol := s.vol
       dev_muted := true
       title := TrayTitle.muted idle_sec },
     [Event.getVol s.vol, Event.setMute true,
      Event.setTitle (TrayTitle.muted idle_sec)])
  else if idle_sec < c.idle_threshold ∧ s.muted_by_us = true then
    match s.saved_volume with
    | some v =>
        ({ muted_by_us := false
           saved_volume := none
           vol := v
           dev_muted := false
           title := TrayTitle.running c.idle_minutes },
         [Event.setMute false, Event.setVol v,
          Event.setTitle (TrayTitle.running c.idle_minutes)])
    | none =>
        ({ muted_by_us := false
           saved_volume := none
           vol := s.vol
           dev_muted := false
           title := TrayTitle.running c.idle_minutes },
         [Event.setMute false,
          Event.setTitle (TrayTitle.running c.idle_minutes)])
  else (s, [])

/-- The final restore pass after the while-loop exits (auto_mute.py
lines 111-116): gated solely on muted_by_us and taking no idle sample,
it calls SetMute(0) and, if saved_volume is not None, writes it back.
It does not reassign the Python state variables or the tray title. -/
def finalRestore (s : SysState) : SysState × List Event :=
  if s.muted_by_us = true then
    match s.saved_volume with
    | some v =>
        ({ s with vol := v, dev_muted := false },
         [Event.setMute false, Event.setVol v])
    | none =>
        ({ s with dev_muted := false }, [Event.setMute false])
  else (s, [])

/-- Iterated ticks of the monitor loop over a list of sampled idle
durations, discarding the event traces. -/
def runTicks (c : Config) (ds : List ℚ) (s : SysState) : SysState :=
  ds.foldl (fun t d => (tick c d t).1) s

/-- Whether an event trace contains a write to the tray title. -/
def titleWritten (ev : List Event) : Bool :=
  ev.any Event.isTitleWrite

/-- Whether an event trace contains a scalar-volume write. -/
def volRestored (ev : List Event) : Bool :=
  ev.any Event.isVolWrite

/-- get_idle_seconds (auto_mute.py lines 26-33): idle_ms is the plain
difference tick_count - lii.dwTime of the two 32-bit OS readings as
Python integers, with no modulo-2^32 correction, and the result is
idle_ms / 1000.0. -/
def get_idle_seconds (tick_count dwTime : ℤ) : ℚ :=
  ((tick_count - dwTime : ℤ) : ℚ) / 1000

/-- The MuteState invariant: saved_volume is present iff muted_by_us. -/
def Inv (s : SysState) : Prop := s.saved_volume.isSome = s.muted_by_us

/-- Helper: exact result of a restore-branch tick. -/
lemma tick_restore_eq (c : Config) (d : ℚ) (s : SysState) (v : ℚ)
    (h1 : d < c.idle_threshold) (h2 : s.muted_by_us = true)
    (h3 : s.saved_volume = some v) :
    tick c d s =
      ({ muted_by_us := false
         saved_volume := none
         vol := v
         dev_muted := false
         title := TrayTitle.running c.idle_minutes },
       [Event.setMute false, Event.setVol v,
        Event.setTitle (TrayTitle.running c.idle_minutes)]) := by
  have hn : ¬ (c.idle_threshold ≤ d) := not_le.mpr h1
  simp [tick, h1, h2, h3, hn]

/-- Helper: exact result of a mute-branch tick. -/
lemma tick_mute_eq (c : Config) (d : ℚ) (s : SysState)
    (h1 : c.idle_threshold ≤ d) (h2 : s.muted_by_us = false) :
    tick c d s =
      ({ muted_by_us := true
         saved_volume := some s.vol
         vol := s.vol
         dev_muted := true
         title := TrayTitle.muted d },
       [Event.getVol s.vol, Event.setMute true,
        Event.setTitle (TrayTitle.muted d)]) := by
  simp [tick, h1, h2]

/-- Helper: a single tick preserves the MuteState invariant. -/
lemma inv_tick (c : Config) (d : ℚ) (s : SysState) (h : Inv s) :
    Inv (tick c d s).1 := by
  unfold tick
  split_ifs with h1 h2
  · simp [Inv]
  · cases hs : s.saved_volume with
    | none => simp [Inv, hs]
    | some v => simp [Inv, hs]
  · exact h

/-- Helper: iterated ticks preserve the MuteState invariant. -/
lemma inv_runTicks (c : Config) (ds : List ℚ) (s : SysState) (h : Inv s) :
    Inv (runTicks c ds s) := by
  induction ds generalizing s with
  | nil => exact h
  | cons d ds ih =>
      have he : runTicks c (d :: ds) s = runTicks c ds (tick c d s).1 := rfl
      rw [he]
      exact ih _ (inv_tick c d s h)

/-- C1: if the sampled idle duration is at least the threshold and
muted_by_us is false, the tick performs exactly one mute transition:
the scalar volume is read (one getVol event) immediately before the
single SetMute(1) call, saved_volume is set to that read value, and
muted_by_us becomes true. -/
theorem tick_mute_transition (c : Config) (d : ℚ) (s : SysState)
    (h1 : c.idle_threshold ≤ d) (h2 : s.muted_by_us = false) :
    (tick c d s).2 =
      [Event.getVol s.vol, Event.setMute true,
       Event.setTitle (TrayTitle.muted d)] ∧
    (tick c d s).1.saved_volume = some s.vol ∧
    (tick c d s).1.muted_by_us = true ∧
    (tick c d s).1.dev_muted = true := by
  rw [tick_mute_eq c d s h1 h2]
  exact ⟨rfl, rfl, rfl, rfl⟩

/-- Witness for C1 at threshold 300, idle sample 301, starting unmuted. -/
theorem tick_mute_transition_w :
    (Config.mk 5 300).idle_threshold ≤ (301 : ℚ) ∧
    (initSt (Config.mk 5 300) 1 false).muted_by_us = false ∧
    (tick (Config.mk 5 300) 301 (initSt (Config.mk 5 300) 1 false)).1.muted_by_us = true ∧
    (tick (Config.mk 5 300) 301 (initSt (Config.mk 5 300) 1 false)).1.saved_volume = some 1 :=
  ⟨by decide, rfl,
   (tick_mute_transition (Config.mk 5 300) 301
      (initSt (Config.mk 5 300) 1 false) (by decide) rfl).2.2.1,
   (tick_mute_transition (Config.mk 5 300) 301
      (initSt (Config.mk 5 300) 1 false) (by decide) rfl).2.1⟩

/-- C2: if the sampled idle duration is below the threshold and
muted_by_us is true (with the saved volume present, as the invariant
guarantees), exactly one restore occurs and in order: SetMute(0) first,
then the scalar volume is written back to the saved value, then
muted_by_us becomes false and saved_volume becomes none. -/
theorem tick_restore_transition (c : Config) (d : ℚ) (s : SysState) (v : ℚ)
    (h1 : d < c.idle_threshold) (h2 : s.muted_by_us = true)
    (h3 : s.saved_volume = some v) :
    (tick c d s).2 =
      [Event.setMute false, Event.setVol v,
       Event.setTitle (TrayTitle.running c.idle_minutes)] ∧
    (tick c d s).1.muted_by_us = false ∧
    (tick c d s).1.saved_volume = none ∧
    (tick c d s).1.dev_muted = false ∧
    (tick c d s).1.vol = v := by
  rw [tick_restore_eq c d s v h1 h2 h3]
  exact ⟨rfl, rfl, rfl, rfl, rfl⟩

/-- Witness for C2 at threshold 300, idle sample 1, muted with saved
volume 1. -/
theorem tick_restore_transition_w :
    (1 : ℚ) < (Config.mk 5 300).idle_threshold ∧
    (tick (Config.mk 5 300) 1
      (SysState.mk true (some 1) 1 true (TrayTitle.muted 400))).2 =
      [Event.setMute false, Event.setVol 1,
       Event.setTitle (TrayTitle.running 5)] :=
  ⟨by decide,
   (tick_restore_transition (Config.mk 5 300) 1
      (SysState.mk true (some 1) 1 true (TrayTitle.muted 400)) 1
      (by decide) rfl rfl).1⟩

/-- C3: the MuteState invariant (saved_volume present iff muted_by_us)
holds at every tick boundary of every run that starts from the initial
state (muted_by_us = false, saved_volume = none), for every
configuration, every device start volume and mute flag, and every
sequence of sampled idle durations. -/
theorem mutestate_invariant (c : Config) (ds : List ℚ) (v0 : ℚ) (m0 : Bool) :
    (runTicks c ds (initSt c v0 m0)).saved_volume.isSome =
      (runTicks c ds (initSt c v0 m0)).muted_by_us :=
  inv_runTicks c ds (initSt c v0 m0) rfl

/-- C4: round-trip law: from an unmuted state, a tick that triggers the
mute branch followed by a tick that triggers the restore branch, with
no external change to the device in between, returns the device scalar
volume exactly to its pre-mute value. -/
theorem mute_restore_roundtrip (c : Config) (d1 d2 : ℚ) (s : SysState)
    (h1 : c.idle_threshold ≤ d1) (h2 : d2 < c.idle_threshold)
    (h3 : s.muted_by_us = false) :
    (tick c d2 (tick c d1 s).1).1.vol = s.vol := by
  rw [tick_mute_eq c d1 s h1 h3]
  rw [tick_restore_eq c d2 _ s.vol h2 rfl rfl]

/-- Witness for C4 at threshold 300, idle samples 301 then 1, start
volume 1. -/
theorem mute_restore_roundtrip_w :
    (Config.mk 5 300).idle_threshold ≤ (301 : ℚ) ∧
    (1 : ℚ) < (Config.mk 5 300).idle_threshold ∧
    (tick (Config.mk 5 300) 1
      (tick (Config.mk 5 300) 301 (initSt (Config.mk 5 300) 1 false)).1).1.vol =
      (initSt (Config.mk 5 300) 1 false).vol :=
  ⟨by decide, by decide,
   mute_restore_roundtrip (Config.mk 5 300) 301 1
     (initSt (Config.mk 5 300) 1 false) (by decide) (by decide) rfl⟩

/-- C5: when neither guard holds (idle below threshold while unmuted,
or idle at/above threshold while already muted), the tick makes no
external call at all and leaves the whole state unchanged; in
particular repeated over-threshold ticks while muted produce no further
mute calls. -/
theorem tick_noop_frame (c : Config) (d : ℚ) (s : SysState)
    (h : (d < c.idle_threshold ∧ s.muted_by_us = false) ∨
         (c.idle_threshold ≤ d ∧ s.muted_by_us = true)) :
    tick c d s = (s, []) := by
  rcases h with ⟨h1, h2⟩ | ⟨h1, h2⟩
  · simp [tick, h2, not_le.mpr h1]
  · simp [tick, h2, not_lt.mpr h1]

/-- Witness for C5 at threshold 300, idle sample 1, starting unmuted. -/
theorem tick_noop_frame_w :
    ((1 : ℚ) < (Config.mk 5 300).idle_threshold ∧
      (initSt (Config.mk 5 300) 1 false).muted_by_us = false) ∧
    tick (Config.mk 5 300) 1 (initSt (Config.mk 5 300) 1 false) =
      (initSt (Config.mk 5 300) 1 false, []) :=
  ⟨⟨by decide, rfl⟩,
   tick_noop_frame (Config.mk 5 300) 1 (initSt (Config.mk 5 300) 1 false)
     (Or.inl ⟨by decide, rfl⟩)⟩

/-- C6: at the exact boundary idle_sec = threshold, a tick taken while
unmuted triggers the mute branch (the mute guard uses >= and wins at
equality): muted_by_us becomes true, the volume is saved, and the mute
event trace is produced. -/
theorem tick_boundary_mutes (c : Config) (s : SysState)
    (h : s.muted_by_us = false) :
    (tick c c.idle_threshold s).1.muted_by_us = true ∧
    (tick c c.idle_threshold s).1.saved_volume = some s.vol ∧
    (tick c c.idle_threshold s).2 =
      [Event.getVol s.vol, Event.setMute true,
       Event.setTitle (TrayTitle.muted c.idle_threshold)] := by
  rw [tick_mute_eq c c.idle_threshold s le_rfl h]
  exact ⟨rfl, rfl, rfl⟩

/-- Witness for C6 at threshold 300, idle sample exactly 300. -/
theorem tick_boundary_mutes_w :
    (initSt (Config.mk 5 300) 1 false).muted_by_us = false ∧
    (tick (Config.mk 5 300) (Config.mk 5 300).idle_threshold
      (initSt (Config.mk 5 300) 1 false)).1.muted_by_us = true :=
  ⟨rfl,
   (tick_boundary_mutes (Config.mk 5 300)
      (initSt (Config.mk 5 300) 1 false) rfl).1⟩

/-- C7: the final restore pass is gated solely on muted_by_us (it takes
no idle sample): when muted_by_us is true and saved_volume is present,
it clears the hardware mute flag and then writes the saved scalar
volume back, leaving the device unmuted at the saved level. -/
theorem final_restore_pass (s : SysState) (v : ℚ)
    (h1 : s.muted_by_us = true) (h2 : s.saved_volume = some v) :
    (finalRestore s).2 = [Event.setMute false, Event.setVol v] ∧
    (finalRestore s).1.dev_muted = false ∧
    (finalRestore s).1.vol = v := by
  simp [finalRestore, h1, h2]

/-- Witness for C7: shutdown while muted with saved_volume 0.42 calls
unmute then restores the scalar volume to 0.42. -/
theorem final_restore_pass_w :
    (SysState.mk true (some 0.42) 0.42 true (TrayTitle.muted 400)).muted_by_us = true ∧
    (finalRestore
      (SysState.mk true (some 0.42) 0.42 true (TrayTitle.muted 400))).2 =
      [Event.setMute false, Event.setVol 0.42] ∧
    (finalRestore
      (SysState.mk true (some 0.42) 0.42 true (TrayTitle.muted 400))).1.vol = 0.42 :=
  ⟨rfl,
   (final_restore_pass
      (SysState.mk true (some 0.42) 0.42 true (TrayTitle.muted 400)) 0.42
      rfl rfl).1,
   (final_restore_pass
      (SysState.mk true (some 0.42) 0.42 true (TrayTitle.muted 400)) 0.42
      rfl rfl).2.2⟩

/-- C8 counterexample: a no-op tick (idle 1s, threshold 300s, unmuted)
writes nothing to the tray title and leaves the displayed text
unchanged, refuting the claim that every iteration updates it. -/
theorem tray_title_every_tick_cex :
    titleWritten
      (tick (Config.mk 5 300) 1 (initSt (Config.mk 5 300) 1 false)).2 = false ∧
    (tick (Config.mk 5 300) 1 (initSt (Config.mk 5 300) 1 false)).1.title =
      (initSt (Config.mk 5 300) 1 false).title :=
  ⟨rfl, rfl⟩

/-- C8 amended: the monitor loop writes the tray title exactly on
transition ticks: a title write occurs iff the tick takes the mute
branch or the restore branch, i.e. iff the boolean of the threshold
test differs from muted_by_us; no-op ticks perform no title write. -/
theorem tray_title_on_transitions (c : Config) (d : ℚ) (s : SysState) :
    titleWritten (tick c d s).2 =
      (decide (c.idle_threshold ≤ d) != s.muted_by_us) := by
  unfold tick
  split_ifs with h1 h2
  · obtain ⟨ha, hb⟩ := h1
    simp [titleWritten, Event.isTitleWrite, ha, hb]
  · obtain ⟨ha, hb⟩ := h2
    cases hs : s.saved_volume with
    | none => simp [titleWritten, Event.isTitleWrite, hs, hb, not_le.mpr ha]
    | some v => simp [titleWritten, Event.isTitleWrite, hs, hb, not_le.mpr ha]
  · cases hm : s.muted_by_us with
    | false =>
        have hlt : ¬ (c.idle_threshold ≤ d) := fun hle => h1 ⟨hle, hm⟩
        simp [titleWritten, hm, hlt]
    | true =>
        have hle : c.idle_threshold ≤ d :=
          not_lt.mp (fun hlt => h2 ⟨hlt, hm⟩)
        simp [titleWritten, hm, hle]

/-- C9: get_idle_seconds performs no wraparound correction: for 32-bit
readings with tick_count below dwTime (as happens after the OS tick
counter wraps), it returns a strictly negative number of seconds. -/
theorem get_idle_seconds_neg (tc dt : ℤ)
    (_h1 : -(2 ^ 31) ≤ tc) (_h2 : tc < 2 ^ 32)
    (_h3 : 0 ≤ dt) (_h4 : dt < 2 ^ 32) (h5 : tc < dt) :
    get_idle_seconds tc dt < 0 := by
  have hnum : ((tc - dt : ℤ) : ℚ) < 0 := by
    have : (tc - dt : ℤ) < 0 := sub_neg.mpr h5
    exact_mod_cast this
  have hden : (0 : ℚ) < 1000 := by norm_num
  exact div_neg_of_neg_of_pos hnum hden

/-- Witness for C9 at readings tick_count = 5, dwTime = 10. -/
theorem get_idle_seconds_neg_w :
    (5 : ℤ) < 10 ∧ get_idle_seconds 5 10 < 0 :=
  ⟨by decide,
   get_idle_seconds_neg 5 10 (by decide) (by decide) (by decide)
     (by decide) (by decide)⟩

/-- C10: in every state reachable from the initial state, if
muted_by_us is true then saved_volume is present, so a restore-branch
tick and the final restore pass both actually write the scalar volume
back (the saved_volume-is-None guard never skips the restore, and the
restore status formatting is never applied to None). -/
theorem restore_guard_never_skips (c : Config) (ds : List ℚ) (v0 : ℚ)
    (m0 : Bool) (d : ℚ)
    (hm : (runTicks c ds (initSt c v0 m0)).muted_by_us = true)
    (hd : d < c.idle_threshold) :
    (runTicks c ds (initSt c v0 m0)).saved_volume.isSome = true ∧
    volRestored (tick c d (runTicks c ds (initSt c v0 m0))).2 = true ∧
    volRestored (finalRestore (runTicks c ds (initSt c v0 m0))).2 = true := by
  have hinv : Inv (runTicks c ds (initSt c v0 m0)) :=
    inv_runTicks c ds (initSt c v0 m0) rfl
  have hsome : (runTicks c ds (initSt c v0 m0)).saved_volume.isSome = true := by
    rw [Inv] at hinv
    rw [hinv, hm]
  obtain ⟨v, hv⟩ := Option.isSome_iff_exists.mp hsome
  refine ⟨hsome, ?_, ?_⟩
  · rw [tick_restore_eq c d _ v hd hm hv]
    rfl
  · simp [finalRestore, hm, hv, volRestored, Event.isVolWrite]

/-- Witness for C10: after one over-threshold tick from startup the
state is muted, and an under-threshold tick from it writes the volume
back. -/
theorem restore_guard_never_skips_w :
    (runTicks (Config.mk 1 60) [70] (initSt (Config.mk 1 60) 1 false)).muted_by_us = true ∧
    (3 : ℚ) < (Config.mk 1 60).idle_threshold ∧
    volRestored
      (tick (Config.mk 1 60) 3
        (runTicks (Config.mk 1 60) [70] (initSt (Config.mk 1 60) 1 false))).2 = true :=
  ⟨rfl, by decide,
   (restore_guard_never_skips (Config.mk 1 60) [70] 1 false 3 rfl (by decide)).2.1⟩

end AutoMute
